import Mathlib

/-
  Verification of the GharintoLeap API test harness.

  Shallow embedding of the Python sources:
    src/backend_test.py          (class APITester)
    src/focused_backend_test.py  (class FocusedAPITester)
    src/backend_test_focused.py  (module-level make_request)
    src/marketplace_api_test.py  (test_endpoint and the coverage scan in main)

  The network is modelled by an `HttpBehavior` value describing what a single
  HTTP call would do: deliver a response, time out, fail to connect, or raise
  some other exception.  A delivered response is characterised by its status
  code, headers, decoded body text, and the result that `response.json()`
  would produce on that body (a parsed value, or the decode-error message).
  Python floats are modelled by exact rationals.
-/

set_option linter.unusedVariables false

/-- A JSON value, as produced by `response.json()` in the Python harness.
Numbers are modelled as integers (the harness only ever reads integer ids). -/
inductive JsonVal where
  | null
  | bool (b : Bool)
  | num (n : Int)
  | str (s : String)
  | arr (elems : List JsonVal)
  | obj (fields : List (String × JsonVal))

/-- Python truthiness of a JSON value (`None`, `0`, `""`, `False` and empty
containers are falsy). -/
def JsonVal.truthy : JsonVal → Bool
  | .null => false
  | .bool b => b
  | .num n => n != 0
  | .str s => !s.isEmpty
  | .arr elems => !elems.isEmpty
  | .obj fields => !fields.isEmpty

/-- Truthiness of an optional JSON value; `none` models Python `None`
(e.g. the result of `dict.get` on a missing key). -/
def truthyOpt : Option JsonVal → Bool
  | none => false
  | some v => v.truthy

/-- One HTTP response as seen by the `requests` library: status code, headers,
decoded body text (`response.text`; empty string = empty body), and what
`response.json()` would return on this body: `.ok v` when the body parses,
`.error msg` when the decode raises (msg is `str(e)` of the decode error). -/
structure HttpResponse where
  status : Nat
  headers : List (String × String)
  content : String
  jsonParse : Except String JsonVal

/-- What one HTTP call does at the transport layer.  `timeout` and
`connectionError` carry `str(e)` of the raised exception; `raisedExn` is any
other exception raised during the call. -/
inductive HttpBehavior where
  | response (r : HttpResponse)
  | timeout (msg : String)
  | connectionError (msg : String)
  | raisedExn (msg : String)

/-- `true` exactly when the behaviour is a transport failure rather than a
delivered response. -/
def isTransportFailure : HttpBehavior → Bool
  | .response _ => false
  | .timeout _ => true
  | .connectionError _ => true
  | .raisedExn _ => true

/-- `requests.Response.ok`: `raise_for_status` raises exactly for client
(4xx) and server (5xx) error codes, so `ok` is false exactly on 400–599.
Note this is NOT "status in the 2xx range": 1xx and 3xx count as ok. -/
def respOk (s : Nat) : Bool :=
  if 400 ≤ s ∧ s < 600 then false else true

/-- Python `str.lower()` (`String.toLower`, restated by mapping over the
character list so that it reduces definitionally). -/
def pyLower (s : String) : String :=
  String.mk (s.data.map Char.toLower)

/-- Python `str.startswith` (`String.startsWith`, restated on the character
lists so that it reduces definitionally). -/
def pyStartsWith (s pre : String) : Bool :=
  pre.data.isPrefixOf s.data

/-- `response.headers.get(key, '')`; `requests` header lookup is
case-insensitive. -/
def headerGet (hs : List (String × String)) (key : String) : String :=
  match hs.find? (fun kv => pyLower kv.1 == pyLower key) with
  | some kv => kv.2
  | none => ""

/-- The condition under which the executors call `response.json()`:
`response.content and response.headers.get('content-type','')
.startswith('application/json')`. -/
def jsonBodySelected (r : HttpResponse) : Bool :=
  !r.content.isEmpty && pyStartsWith (headerGet r.headers "content-type") "application/json"

/-- The `data` entry of a successful-transport outcome dict: either the parsed
JSON body or the raw body text. -/
inductive ReqData where
  | json (v : JsonVal)
  | text (s : String)

/-- The dict returned by the `make_request` helpers.  A successful-transport
outcome populates `status`, `ok`, `data`, `headers`; an exception path
populates `status := 0`, `ok := false`, `error`. -/
structure RequestOutcome where
  status : Nat
  ok : Bool
  data : Option ReqData
  headers : Option (List (String × String))
  error : Option String

/-- The failure dict `{'status': 0, 'ok': False, 'error': e}`. -/
def failOutcome (e : String) : RequestOutcome :=
  ⟨0, false, none, none, some e⟩

/-- 2xx range, as the specification uses the term. -/
def is2xx (s : Nat) : Prop := 200 ≤ s ∧ s < 300

instance (s : Nat) : Decidable (is2xx s) := by unfold is2xx; infer_instance

/-- `dict.get(key)` as applied to the `data` entry of an outcome.  On a JSON
object it returns the value (or `None`); on a raw string body or a non-object
JSON value, Python raises `AttributeError` (strings, ints, lists and `None`
have no `.get`). -/
def dataGet (d : ReqData) (key : String) : Except String (Option JsonVal) :=
  match d with
  | .json (.obj fields) => .ok (fields.lookup key)
  | .json _ => .error "AttributeError: json value has no attribute get"
  | .text _ => .error "AttributeError: str object has no attribute get"

/-- Python `str.upper()` (`String.toUpper`, restated by mapping over the
character list so that it reduces definitionally). -/
def pyUpper (s : String) : String :=
  String.mk (s.data.map Char.toUpper)

namespace APITester

/-- The method dispatch of `APITester.make_request`: `method.upper()` must be
one of GET, POST, PUT, DELETE, otherwise `ValueError` is raised (and caught
by the generic handler). -/
def methodSupported (m : String) : Bool :=
  pyUpper m == "GET" || pyUpper m == "POST" || pyUpper m == "PUT" || pyUpper m == "DELETE"

/-- `APITester.make_request(method, endpoint, data, token, timeout)` from
src/backend_test.py.  The whole body runs inside one `try`:
`requests.exceptions.Timeout` → `{'status': 0, 'ok': False, 'error':
'Request timeout'}`; `ConnectionError` → the same with 'Connection error';
any other exception (including the unsupported-method `ValueError` and a
JSON decode error from `response.json()`) → the same with `str(e)`.
On a delivered response the dict carries the real status, `response.ok`,
the parsed JSON body when the content-type says JSON (raw text otherwise),
and the headers. -/
def make_request (method endpoint : String) (data : Option JsonVal)
    (token : Option String) (timeout : Nat) (b : HttpBehavior) : RequestOutcome :=
  if methodSupported method then
    match b with
    | .response r =>
      if jsonBodySelected r then
        match r.jsonParse with
        | .ok v => ⟨r.status, respOk r.status, some (.json v), some r.headers, none⟩
        | .error e => failOutcome e
      else
        ⟨r.status, respOk r.status, some (.text r.content), some r.headers, none⟩
    | .timeout _ => failOutcome "Request timeout"
    | .connectionError _ => failOutcome "Connection error"
    | .raisedExn e => failOutcome e
  else
    failOutcome ("Unsupported method: " ++ method)

end APITester

/-- One logged test: `{'name': ..., 'passed': ..., 'details': ...}`. -/
structure TestResult where
  name : String
  passed : Bool
  details : String

/-- `self.test_results`: the pass/fail counters and the ordered detail list,
`{'passed': 0, 'failed': 0, 'details': []}` at start.  Identical in
`APITester` and `FocusedAPITester`. -/
structure ResultAggregate where
  passed : Nat
  failed : Nat
  details : List TestResult

/-- The initial aggregate. -/
def initResults : ResultAggregate := ⟨0, 0, []⟩

/-- `log_test(name, passed, details)` (identical in src/backend_test.py line
64 and src/focused_backend_test.py line 58): increments exactly one of the
two counters and appends one entry to `details`, in the same step. -/
def log_test (agg : ResultAggregate) (name : String) (passed : Bool)
    (details : String) : ResultAggregate :=
  ⟨agg.passed + (if passed then 1 else 0),
   agg.failed + (if passed then 0 else 1),
   agg.details ++ [⟨name, passed, details⟩]⟩

/-- Running a sequence of `log_test` operations from the initial aggregate;
every reachable `self.test_results` state is of this form. -/
def runLog (ops : List (String × Bool × String)) : ResultAggregate :=
  ops.foldl (fun agg op => log_test agg op.1 op.2.1 op.2.2) initResults

/-- The detail text `Status: {s}` used throughout the suites. -/
def statusDetail (s : Nat) : String := "Status: " ++ toString s

/-- `success_rate = (passed / total * 100) if total > 0 else 0`, computed
identically in `run_comprehensive_tests` (src/backend_test.py line 506) and
`run_focused_tests` (src/focused_backend_test.py line 240); the Python float
quotient is modelled by the exact rational. -/
def successRate (passed failed : Nat) : ℚ :=
  if 0 < passed + failed then (passed : ℚ) / ((passed + failed : Nat) : ℚ) * 100 else 0

/-- What one lifecycle-chain section of a test method does: the TestResults
handed to `log_test`, in order; the number of downstream HTTP requests issued
after the creation call; and the message of the uncaught Python exception
when the section aborts (results logged before the exception are kept). -/
structure ChainRun where
  logged : List TestResult
  downstreamCalls : Nat
  uncaught : Option String

namespace APITester

/-- The dependent chain of `APITester.test_project_management` from the
creation call on (the preceding independent list fetch is not part of the
chain): `create`, `detail`, `upd` are the outcomes `make_request` returns
for `POST /projects`, `GET /projects/{id}` and `PUT /projects/{id}`.  The
creation result is logged first; the detail fetch and the update are issued
only when `create['ok'] and create['data'].get('id')` is truthy.  There is
no else branch: a falsy id skips them with no further log entry, and on a
raw-string body the `.get` attribute access raises. -/
def test_project_management (create detail upd : RequestOutcome) : ChainRun :=
  let r1 : TestResult := ⟨"Create Project", create.ok, statusDetail create.status⟩
  if create.ok then
    match create.data with
    | none => ⟨[r1], 0, some "KeyError: data"⟩
    | some d =>
      match dataGet d "id" with
      | .error e => ⟨[r1], 0, some e⟩
      | .ok idv =>
        if truthyOpt idv then
          ⟨[r1, ⟨"Get Project Details", detail.ok, statusDetail detail.status⟩,
            ⟨"Update Project", upd.ok, statusDetail upd.status⟩], 2, none⟩
        else ⟨[r1], 0, none⟩
  else ⟨[r1], 0, none⟩

/-- The dependent chain of `APITester.test_lead_management` from the creation
call on, with the same structure as the project chain but three downstream
calls (detail fetch, assign, update). -/
def test_lead_management (create detail assign upd : RequestOutcome) : ChainRun :=
  let r1 : TestResult := ⟨"Create Lead (Public)", create.ok, statusDetail create.status⟩
  if create.ok then
    match create.data with
    | none => ⟨[r1], 0, some "KeyError: data"⟩
    | some d =>
      match dataGet d "id" with
      | .error e => ⟨[r1], 0, some e⟩
      | .ok idv =>
        if truthyOpt idv then
          ⟨[r1, ⟨"Get Lead Details", detail.ok, statusDetail detail.status⟩,
            ⟨"Assign Lead", assign.ok, statusDetail assign.status⟩,
            ⟨"Update Lead", upd.ok, statusDetail upd.status⟩], 3, none⟩
        else ⟨[r1], 0, none⟩
  else ⟨[r1], 0, none⟩

/-- The forged-token probe of `test_security_and_permissions` (line 461):
the TestResult logged for the outcome of
`make_request('GET', '/users/profile', token='invalid-token-123')` —
"Invalid Token Rejected", passed iff `not ok and status == 403`. -/
def invalid_token_probe (resp : RequestOutcome) : TestResult :=
  ⟨"Invalid Token Rejected", (!resp.ok) && (resp.status == 403), statusDetail resp.status⟩

/-- The value `run_comprehensive_tests` returns when all suites complete,
as a function of the final counters: `success_rate >= 85` (line 539).  If a
suite raises, the method instead prints the error and returns False.  The
class keeps no vulnerability list anywhere; the verdict depends only on the
two counters. -/
def run_comprehensive_tests (passed failed : Nat) : Bool :=
  decide (85 ≤ successRate passed failed)

/-- `main()` (line 545): `sys.exit(0 if success else 1)`. -/
def main_exit_code (passed failed : Nat) : Nat :=
  if run_comprehensive_tests passed failed then 0 else 1

end APITester

namespace FocusedAPITester

/-- `FocusedAPITester.make_request` (src/focused_backend_test.py line 25) is
verbatim identical to `APITester.make_request`. -/
def make_request := @APITester.make_request

/-- The detail text `Failed to create test project: Status {s}`. -/
def failedCreateDetail (s : Nat) : String :=
  "Failed to create test project: Status " ++ toString s

/-- Section 1 (update-project) of
`FocusedAPITester.test_critical_failing_endpoints` (line 104): the creation
outcome is only printed, never logged.  When
`create['ok'] and create['data'].get('id')` is truthy the update call is
issued and logged as "Update Project (PUT /projects/:id)" with the update's
own pass flag; otherwise that same test name is logged as failed with the
creation status.  (The JSON response dump appended to the success detail
text is elided here; nothing reads it.) -/
def test_critical_failing_endpoints_project (create upd : RequestOutcome) : ChainRun :=
  if create.ok then
    match create.data with
    | none => ⟨[], 0, some "KeyError: data"⟩
    | some d =>
      match dataGet d "id" with
      | .error e => ⟨[], 0, some e⟩
      | .ok idv =>
        if truthyOpt idv then
          ⟨[⟨"Update Project (PUT /projects/:id)", upd.ok, statusDetail upd.status⟩],
           1, none⟩
        else
          ⟨[⟨"Update Project (PUT /projects/:id)", false,
             failedCreateDetail create.status⟩], 0, none⟩
  else
    ⟨[⟨"Update Project (PUT /projects/:id)", false,
       failedCreateDetail create.status⟩], 0, none⟩

end FocusedAPITester

namespace BackendTestFocused

/-- Method dispatch of the module-level `make_request` in
src/backend_test_focused.py: only GET, POST and PUT are handled. -/
def methodSupported (m : String) : Bool :=
  pyUpper m == "GET" || pyUpper m == "POST" || pyUpper m == "PUT"

/-- `make_request(method, endpoint, data, token)` from
src/backend_test_focused.py (line 13): same response handling as
`APITester.make_request`, but a single `except Exception` turns every raised
exception — timeouts and connection errors included — into
`{'status': 0, 'ok': False, 'error': str(e)}`. -/
def make_request (method endpoint : String) (data : Option JsonVal)
    (token : Option String) (b : HttpBehavior) : RequestOutcome :=
  if methodSupported method then
    match b with
    | .response r =>
      if jsonBodySelected r then
        match r.jsonParse with
        | .ok v => ⟨r.status, respOk r.status, some (.json v), some r.headers, none⟩
        | .error e => failOutcome e
      else
        ⟨r.status, respOk r.status, some (.text r.content), some r.headers, none⟩
    | .timeout e => failOutcome e
    | .connectionError e => failOutcome e
    | .raisedExn e => failOutcome e
  else
    failOutcome ("Unsupported method: " ++ method)

end BackendTestFocused

/-- Rounding to one decimal place, as Python's `:.1f` formatting performs on
the printed figure.  (Python rounds the underlying binary float half to
even; no figure in this development is an exact tie, away from which the two
rules agree, and none is close enough to a tie for float error to matter.) -/
def round1 (q : ℚ) : ℚ := ((⌊q * 10 + 1 / 2⌋ : ℤ) : ℚ) / 10

/-- Truncation to one decimal place — what the specification's wording
"truncated to one decimal place" denotes for nonnegative values. -/
def trunc1 (q : ℚ) : ℚ := ((⌊q * 10⌋ : ℤ) : ℚ) / 10

namespace MarketplaceApiTest

/-- The dict returned by `test_endpoint` in src/marketplace_api_test.py. -/
structure EndpointResult where
  exists_ : Bool
  status_code : Nat
  accessible : Bool
  response_size : Option Nat
  error : Option String

/-- The methods `test_endpoint` dispatches on (exact comparison, no
upper-casing in this file). -/
def methodHandled (m : String) : Bool :=
  m == "GET" || m == "POST" || m == "PUT" || m == "DELETE"

/-- `test_endpoint(endpoint, method, token, data)` (line 25): on a delivered
response, `exists` is `status_code != 404` and `accessible` is
`status_code < 500`; on any raised exception the except branch returns
`exists` False, `status_code` 0, `accessible` False and `str(e)` (for an
unhandled method the name `response` is unbound, so reading
`response.status_code` raises NameError, caught by the same branch). -/
def test_endpoint (method : String) (b : HttpBehavior) : EndpointResult :=
  if methodHandled method then
    match b with
    | .response r =>
      ⟨decide (r.status ≠ 404), r.status, decide (r.status < 500),
       some r.content.length, none⟩
    | .timeout e => ⟨false, 0, false, none, some e⟩
    | .connectionError e => ⟨false, 0, false, none, some e⟩
    | .raisedExn e => ⟨false, 0, false, none, some e⟩
  else ⟨false, 0, false, none, some "NameError: name response is not defined"⟩

/-- A delivered response carrying only a status code; the scan's
classification reads nothing else. -/
def statusResp (s : Nat) : HttpBehavior :=
  .response ⟨s, [], "", .error "Expecting value"⟩

/-- `len(existing_endpoints)` after the scan loop in `main` (line 165), for
a list of per-endpoint behaviours probed with GET. -/
def existingCount (bs : List HttpBehavior) : Nat :=
  ((bs.map (test_endpoint "GET")).filter (fun r => r.exists_)).length

/-- `len(missing_endpoints)` after the scan loop in `main`. -/
def missingCount (bs : List HttpBehavior) : Nat :=
  ((bs.map (test_endpoint "GET")).filter (fun r => !r.exists_)).length

/-- The exact value of `len(existing)/len(endpoints)*100` in the coverage
report line. -/
def coverage (bs : List HttpBehavior) : ℚ :=
  (existingCount bs : ℚ) / (bs.length : ℚ) * 100

/-- The coverage figure as printed with `:.1f`. -/
def coverageDisplay (bs : List HttpBehavior) : ℚ := round1 (coverage bs)

end MarketplaceApiTest

/-- The overall-success predicate as the SPECIFICATION states it — success
rate at least 85 percent AND no recorded VulnerabilityRecords.  Written from
the spec's words for comparison: the code under src/ keeps no vulnerability
list at all, so the second input has no counterpart there. -/
def spec_overall_success (passed failed : Nat) (vulns : List String) : Bool :=
  decide (85 ≤ successRate passed failed) && vulns.isEmpty

/-- The success-rate formula as the SPECIFICATION words it ("passed /
(passed+failed) expressed as a percentage truncated to one decimal place, 0
when the total is 0"), for comparison with the code's `successRate`. -/
def spec_successRate_truncated (passed failed : Nat) : ℚ :=
  if 0 < passed + failed then
    trunc1 ((passed : ℚ) / ((passed + failed : Nat) : ℚ) * 100)
  else 0

/-- Auxiliary: folding `log_test` over any operation list preserves the
counter/length invariant. -/
lemma foldl_log_test_invariant (ops : List (String × Bool × String)) :
    ∀ agg : ResultAggregate, agg.passed + agg.failed = agg.details.length →
      ((ops.foldl (fun agg op => log_test agg op.1 op.2.1 op.2.2) agg).passed
        + (ops.foldl (fun agg op => log_test agg op.1 op.2.1 op.2.2) agg).failed
        = (ops.foldl (fun agg op => log_test agg op.1 op.2.1 op.2.2) agg).details.length) := by
  induction ops with
  | nil => intro agg h; simpa using h
  | cons op rest ih =>
    intro agg h
    simp only [List.foldl_cons]
    apply ih
    cases hb : op.2.1 <;> simp [log_test, hb] <;> omega

/-- C3: for every sequence of record operations, the aggregate invariant
passed-count + failed-count = length of the ordered details sequence holds at
every point in execution, and each single `log_test` appends exactly one
TestResult and increments exactly one of the two counters in the same step. -/
theorem log_test_preserves_aggregate_invariant :
    (∀ ops : List (String × Bool × String),
      (runLog ops).passed + (runLog ops).failed = (runLog ops).details.length)
    ∧ (∀ (agg : ResultAggregate) (n : String) (p : Bool) (d : String),
        (log_test agg n p d).details = agg.details ++ [⟨n, p, d⟩]
        ∧ (log_test agg n p d).passed = agg.passed + (if p then 1 else 0)
        ∧ (log_test agg n p d).failed = agg.failed + (if p then 0 else 1)) := by
  refine ⟨fun ops => foldl_log_test_invariant ops initResults rfl, ?_⟩
  intro agg n p d
  exact ⟨rfl, rfl, rfl⟩

/-- C1 (amended): the exit code is 0 exactly when `run_comprehensive_tests`
returns true, which holds exactly when at least one test ran and the success
rate is at least 85 percent — equivalently `17 * total ≤ 20 * passed`.  No
vulnerability condition enters the verdict. -/
theorem exit_code_zero_iff_success_rate_ge_85 :
    ∀ passed failed : Nat,
      (APITester.main_exit_code passed failed = 0
        ↔ APITester.run_comprehensive_tests passed failed = true)
      ∧ (APITester.run_comprehensive_tests passed failed = true
        ↔ (0 < passed + failed ∧ 17 * (passed + failed) ≤ 20 * passed)) := by
  intro p f
  constructor
  · unfold APITester.main_exit_code
    by_cases h : APITester.run_comprehensive_tests p f <;> simp [h]
  · unfold APITester.run_comprehensive_tests successRate
    by_cases h : 0 < p + f
    · simp only [if_pos h, decide_eq_true_eq]
      have hpos : (0 : ℚ) < ((p + f : Nat) : ℚ) := by exact_mod_cast h
      rw [div_mul_eq_mul_div, le_div_iff₀ hpos]
      constructor
      · intro hle
        refine ⟨h, ?_⟩
        have hnat : 85 * (p + f) ≤ p * 100 := by exact_mod_cast hle
        omega
      · rintro ⟨-, hle⟩
        have hnat : 85 * (p + f) ≤ p * 100 := by omega
        exact_mod_cast hnat
    · have h0 : ¬ ((85 : ℚ) ≤ 0) := by norm_num
      simp [if_neg h, h0, h]

/-- C1 (counterexample): a run with a 100 percent pass rate exits with code
0 whatever security findings exist — here five passed tests, no failures,
and one vulnerability in the specification's sense; the code's verdict is
true and the exit code 0, while the specification's overall-success
predicate demands failure. -/
theorem overall_verdict_ignores_vulnerabilities_cex :
    APITester.run_comprehensive_tests 5 0 = true
    ∧ APITester.main_exit_code 5 0 = 0
    ∧ successRate 5 0 = 100
    ∧ spec_overall_success 5 0 ["Invalid JWT tokens are accepted"] = false := by
  have hrate : successRate 5 0 = 100 := by unfold successRate; norm_num
  have hrun : APITester.run_comprehensive_tests 5 0 = true := by
    unfold APITester.run_comprehensive_tests
    rw [hrate]; norm_num
  refine ⟨hrun, ?_, hrate, ?_⟩
  · unfold APITester.main_exit_code
    rw [hrun]
    rfl
  · unfold spec_overall_success
    simp [List.isEmpty]

/-- C7 (amended): the computed success rate is the exact percentage quotient
(stated denominator-cleared), with the zero-total case guarded to 0 by the
conditional rather than raising. -/
theorem success_rate_exact_with_zero_guard :
    ∀ passed failed : Nat,
      (passed + failed = 0 → successRate passed failed = 0)
      ∧ (0 < passed + failed →
          successRate passed failed * ((passed + failed : Nat) : ℚ)
            = 100 * (passed : ℚ)) := by
  intro p f
  constructor
  · intro h; unfold successRate; simp [h]
  · intro h
    have hne : (p : ℚ) + (f : ℚ) ≠ 0 := by
      have hq : (0 : ℚ) < (p : ℚ) + (f : ℚ) := by exact_mod_cast h
      exact ne_of_gt hq
    unfold successRate
    rw [if_pos h]
    push_cast
    field_simp
    ring

/-- Witness for C7's amended theorem at passed = 3, failed = 1. -/
theorem success_rate_exact_with_zero_guard_witness :
    successRate 3 1 * ((3 + 1 : Nat) : ℚ) = 100 * (3 : ℚ) :=
  (success_rate_exact_with_zero_guard 3 1).2 (by norm_num)

/-- C7 (counterexample): at 2 passed and 1 failed the code's success rate is
exactly 200/3 = 66.666...; the specification's "truncated to one decimal
place" value is 66.6, which the code value does not equal, and the figure
the report prints is the rounded 66.7, not the truncated 66.6. -/
theorem success_rate_not_truncated_cex :
    successRate 2 1 ≠ spec_successRate_truncated 2 1
    ∧ successRate 2 1 = 200 / 3
    ∧ spec_successRate_truncated 2 1 = 666 / 10
    ∧ round1 (successRate 2 1) = 667 / 10 := by
  have h1 : successRate 2 1 = 200 / 3 := by unfold successRate; norm_num
  have hfl : (⌊(200 : ℚ) / 3 * 10⌋ : ℤ) = 666 := by
    rw [Int.floor_eq_iff]
    norm_num
  have hfl2 : (⌊(200 : ℚ) / 3 * 10 + 1 / 2⌋ : ℤ) = 667 := by
    rw [Int.floor_eq_iff]
    norm_num
  have h2 : spec_successRate_truncated 2 1 = 666 / 10 := by
    unfold spec_successRate_truncated trunc1
    rw [if_pos (by norm_num : (0 : Nat) < 2 + 1)]
    rw [show ((2 : Nat) : ℚ) / (((2 + 1 : Nat) : Nat) : ℚ) * 100 = 200 / 3 by norm_num]
    rw [hfl]; norm_num
  refine ⟨?_, h1, h2, ?_⟩
  · rw [h1, h2]; norm_num
  · rw [h1]; unfold round1; rw [hfl2]; norm_num

/-- C2: the HTTP request executor never raises — for every method, endpoint,
body, token and timeout, every transport failure (timeout, connection error,
or any other exception raised during the call) is returned as an outcome
with status 0, ok False and a descriptive error field; with a supported
method, the timeout and connection-error handlers produce their fixed
messages and any other exception its own message.
`FocusedAPITester.make_request` is the identical function. -/
theorem make_request_transport_failures_never_raise :
    ∀ (method endpoint : String) (data : Option JsonVal) (token : Option String)
      (timeout : Nat) (b : HttpBehavior),
      (isTransportFailure b = true →
        (APITester.make_request method endpoint data token timeout b).status = 0
        ∧ (APITester.make_request method endpoint data token timeout b).ok = false
        ∧ (APITester.make_request method endpoint data token timeout b).error.isSome = true
        ∧ FocusedAPITester.make_request method endpoint data token timeout b
            = APITester.make_request method endpoint data token timeout b)
      ∧ (APITester.methodSupported method = true →
          (∀ e, APITester.make_request method endpoint data token timeout (.timeout e)
              = failOutcome "Request timeout")
          ∧ (∀ e, APITester.make_request method endpoint data token timeout (.connectionError e)
              = failOutcome "Connection error")
          ∧ (∀ e, APITester.make_request method endpoint data token timeout (.raisedExn e)
              = failOutcome e)) := by
  intro method endpoint data token timeout b
  constructor
  · intro hb
    obtain ⟨e, he⟩ :
        ∃ e, APITester.make_request method endpoint data token timeout b = failOutcome e := by
      unfold APITester.make_request
      split
      · cases b with
        | response r => simp [isTransportFailure] at hb
        | timeout m => exact ⟨"Request timeout", rfl⟩
        | connectionError m => exact ⟨"Connection error", rfl⟩
        | raisedExn m => exact ⟨m, rfl⟩
      · exact ⟨"Unsupported method: " ++ method, rfl⟩
    exact ⟨by rw [he]; rfl, by rw [he]; rfl, by rw [he]; rfl, rfl⟩
  · intro hm
    refine ⟨fun e => ?_, fun e => ?_, fun e => ?_⟩ <;>
      (unfold APITester.make_request; rw [if_pos hm])

/-- Witness for C2 at a GET that times out. -/
theorem make_request_transport_failures_never_raise_witness :
    (APITester.make_request "GET" "/health" none none 30 (.timeout "timed out")).status = 0
    ∧ (APITester.make_request "GET" "/health" none none 30 (.timeout "timed out")).ok = false
    ∧ (APITester.make_request "GET" "/health" none none 30
        (.timeout "timed out")).error.isSome = true
    ∧ FocusedAPITester.make_request "GET" "/health" none none 30 (.timeout "timed out")
        = APITester.make_request "GET" "/health" none none 30 (.timeout "timed out") :=
  (make_request_transport_failures_never_raise "GET" "/health" none none 30
    (.timeout "timed out")).1 rfl

/-- C4 (amended): a response whose content-type indicates JSON but whose
body fails to parse is NOT returned as a successful-transport outcome: the
decode error escapes `response.json()` into the generic exception handler,
which returns the transport-failure dict — status 0, ok False, error = the
decode error message; the real status code and the raw text are lost. -/
theorem json_decode_failure_yields_transport_outcome :
    ∀ (method endpoint : String) (data : Option JsonVal) (token : Option String)
      (timeout : Nat) (r : HttpResponse) (e : String),
      APITester.methodSupported method = true →
      jsonBodySelected r = true →
      r.jsonParse = .error e →
      APITester.make_request method endpoint data token timeout (.response r)
        = failOutcome e := by
  intro method endpoint data token timeout r e hm hsel hp
  simp [APITester.make_request, hm, hsel, hp]

/-- Witness for C4's amended theorem on a concrete undecodable 200. -/
theorem json_decode_failure_yields_transport_outcome_witness :
    APITester.make_request "GET" "/projects" none none 30
      (.response ⟨200, [("content-type", "application/json")], "not json",
        .error "Expecting value: line 1 column 1 (char 0)"⟩)
      = failOutcome "Expecting value: line 1 column 1 (char 0)" :=
  json_decode_failure_yields_transport_outcome "GET" "/projects" none none 30 _ _
    (by decide) (by decide) rfl

/-- C4 (counterexample): a 200 response declaring application/json whose
body does not parse is converted into the status-0 failure outcome, not the
successful-transport outcome preserving status 200 with the raw text body
that the claim describes. -/
theorem json_decode_failure_not_preserved_cex :
    APITester.make_request "GET" "/projects" none none 30
      (.response ⟨200, [("content-type", "application/json")], "not json",
        .error "Expecting value: line 1 column 1 (char 0)"⟩)
      = failOutcome "Expecting value: line 1 column 1 (char 0)"
    ∧ failOutcome "Expecting value: line 1 column 1 (char 0)"
      ≠ ⟨200, true, some (.text "not json"),
          some [("content-type", "application/json")], none⟩ := by
  refine ⟨rfl, fun h => ?_⟩
  have hs := congrArg RequestOutcome.status h
  simp [failOutcome] at hs

/-- Auxiliary: a method unsupported by `APITester.make_request` is also
unsupported by the module-level executor of src/backend_test_focused.py,
whose dispatch handles a subset of the methods. -/
lemma btf_method_subset (m : String) (h : APITester.methodSupported m = false) :
    BackendTestFocused.methodSupported m = false := by
  unfold APITester.methodSupported at h
  unfold BackendTestFocused.methodSupported
  simp only [Bool.or_eq_false_iff] at h ⊢
  exact h.1

/-- C10: for every method string whose upper-casing is outside
GET/POST/PUT/DELETE, both executors swallow the `ValueError` they construct
in their own generic exception handler and return the ordinary failure
outcome — status 0, ok False, the ValueError message as error — so nothing
propagates to the caller. -/
theorem unsupported_method_swallowed_into_failure_outcome :
    ∀ (method endpoint : String) (data : Option JsonVal) (token : Option String)
      (timeout : Nat) (b : HttpBehavior),
      APITester.methodSupported method = false →
      APITester.make_request method endpoint data token timeout b
          = failOutcome ("Unsupported method: " ++ method)
      ∧ BackendTestFocused.make_request method endpoint data token b
          = failOutcome ("Unsupported method: " ++ method) := by
  intro method endpoint data token timeout b h
  constructor
  · unfold APITester.make_request
    rw [if_neg (by simp [h])]
  · unfold BackendTestFocused.make_request
    rw [if_neg (by simp [btf_method_subset method h])]

/-- Witness for C10 at the unsupported method PATCH. -/
theorem unsupported_method_swallowed_into_failure_outcome_witness :
    APITester.make_request "PATCH" "/projects" none none 30 (.timeout "t")
        = failOutcome ("Unsupported method: " ++ "PATCH")
    ∧ BackendTestFocused.make_request "PATCH" "/projects" none none (.timeout "t")
        = failOutcome ("Unsupported method: " ++ "PATCH") :=
  unsupported_method_swallowed_into_failure_outcome "PATCH" "/projects" none none 30
    (.timeout "t") (by decide)

/-- C5 (amended): when creation returns ok with a parsed JSON-object body
lacking a truthy id, both chains of src/backend_test.py terminate after
create and append NO TestResult for the skipped downstream steps — only the
(passed) creation result is logged and no downstream call is issued, the
steps being silently omitted; and when such a creation body is a raw string
(empty or non-JSON), the id lookup raises AttributeError, aborting the test
method after the creation result. -/
theorem create_ok_without_id_terminates_chain_silently :
    ∀ (create detail assign upd : RequestOutcome) (fields : List (String × JsonVal)),
      create.ok = true →
      create.data = some (.json (.obj fields)) →
      truthyOpt (fields.lookup "id") = false →
      APITester.test_project_management create detail upd
          = ⟨[⟨"Create Project", true, statusDetail create.status⟩], 0, none⟩
      ∧ APITester.test_lead_management create detail assign upd
          = ⟨[⟨"Create Lead (Public)", true, statusDetail create.status⟩], 0, none⟩
      ∧ (∀ (c : RequestOutcome) (t : String), c.ok = true → c.data = some (.text t) →
          APITester.test_project_management c detail upd
            = ⟨[⟨"Create Project", true, statusDetail c.status⟩], 0,
               some "AttributeError: str object has no attribute get"⟩) := by
  intro create detail assign upd fields hok hdata hid
  refine ⟨?_, ?_, ?_⟩
  · simp [APITester.test_project_management, hok, hdata, dataGet, hid]
  · simp [APITester.test_lead_management, hok, hdata, dataGet, hid]
  · intro c t hcok hcdata
    simp [APITester.test_project_management, hcok, hcdata, dataGet]

/-- Witness for C5's amended theorem: a 201 creation outcome whose JSON body
has no id leaves exactly the one passed creation result. -/
theorem create_ok_without_id_terminates_chain_silently_witness :
    APITester.test_project_management
        ⟨201, true, some (.json (.obj [("message", .str "created")])), some [], none⟩
        (failOutcome "Request timeout") (failOutcome "Request timeout")
      = ⟨[⟨"Create Project", true, statusDetail 201⟩], 0, none⟩ :=
  (create_ok_without_id_terminates_chain_silently
      ⟨201, true, some (.json (.obj [("message", .str "created")])), some [], none⟩
      (failOutcome "Request timeout") (failOutcome "Request timeout")
      (failOutcome "Request timeout") [("message", .str "created")] rfl rfl rfl).1

/-- C5 (counterexample): a 2xx creation (201, JSON body without an id) makes
`test_project_management` record exactly one TestResult — the PASSED
creation entry — and issue no downstream call; no failed TestResult is
appended for the skipped detail-fetch and update steps, contrary to the
claim that one failed TestResult per skipped step is emitted. -/
theorem missing_id_downstream_silently_omitted_cex :
    is2xx 201
    ∧ APITester.test_project_management
        (APITester.make_request "POST" "/projects" none (some "tok") 30
          (.response ⟨201, [("content-type", "application/json")], "raw",
            .ok (.obj [("message", .str "created")])⟩))
        (failOutcome "Request timeout") (failOutcome "Request timeout")
      = ⟨[⟨"Create Project", true, "Status: 201"⟩], 0, none⟩
    ∧ ([⟨"Create Project", true, "Status: 201"⟩] : List TestResult).length = 1
    ∧ (∀ tr ∈ ([⟨"Create Project", true, "Status: 201"⟩] : List TestResult),
        tr.passed = true) := by
  refine ⟨by decide, rfl, rfl, ?_⟩
  intro tr htr
  rcases List.mem_singleton.mp htr with rfl
  rfl

/-- C6 (amended): the forged-token probe is classified passed exactly when
the response status is 403 — a response (that parses, or is not JSON) with
any other status, other non-2xx statuses such as 401 included, logs a FAILED
"Invalid Token Rejected" TestResult, as does a transport failure; no
VulnerabilityRecord is produced anywhere (the class keeps none). -/
theorem forged_token_probe_passed_iff_403 :
    (∀ r : HttpResponse,
      jsonBodySelected r = false ∨ (∃ v, r.jsonParse = .ok v) →
      (APITester.invalid_token_probe
          (APITester.make_request "GET" "/users/profile" none
            (some "invalid-token-123") 30 (.response r))).passed
        = decide (r.status = 403))
    ∧ (∀ b : HttpBehavior, isTransportFailure b = true →
        (APITester.invalid_token_probe
            (APITester.make_request "GET" "/users/profile" none
              (some "invalid-token-123") 30 b)).passed = false) := by
  have hm : APITester.methodSupported "GET" = true := by decide
  have key : ∀ s : Nat, ((!respOk s) && (s == 403)) = decide (s = 403) := by
    intro s
    by_cases h : s = 403
    · subst h; rfl
    · have hbeq : (s == 403) = false := beq_eq_false_iff_ne.mpr h
      simp [hbeq, h]
  constructor
  · intro r hr
    rcases hr with hsel | ⟨v, hv⟩
    · simp [APITester.make_request, hm, hsel, APITester.invalid_token_probe, key]
    · by_cases hs : jsonBodySelected r
      · simp [APITester.make_request, hm, hs, hv, APITester.invalid_token_probe, key]
      · simp [APITester.make_request, hm, hs, APITester.invalid_token_probe, key]
  · intro b hb
    cases b with
    | response r => simp [isTransportFailure] at hb
    | timeout e =>
      simp [APITester.make_request, hm, APITester.invalid_token_probe, failOutcome]
    | connectionError e =>
      simp [APITester.make_request, hm, APITester.invalid_token_probe, failOutcome]
    | raisedExn e =>
      simp [APITester.make_request, hm, APITester.invalid_token_probe, failOutcome]

/-- Witness for C6's amended theorem at a plain 403 rejection. -/
theorem forged_token_probe_passed_iff_403_witness :
    (APITester.invalid_token_probe
        (APITester.make_request "GET" "/users/profile" none
          (some "invalid-token-123") 30
          (.response ⟨403, [], "Forbidden", .error "nope"⟩))).passed
      = decide ((403 : Nat) = 403) :=
  forged_token_probe_passed_iff_403.1 ⟨403, [], "Forbidden", .error "nope"⟩ (Or.inl rfl)

/-- C6 (counterexample): a 401 response — non-2xx, the typical rejection
status — makes the forged-token probe log a FAILED TestResult, because the
code demands status 403 exactly, where the claim classifies every non-2xx
response as passed. -/
theorem forged_token_401_not_passed_cex :
    ¬ is2xx 401
    ∧ (APITester.invalid_token_probe
        (APITester.make_request "GET" "/users/profile" none
          (some "invalid-token-123") 30
          (.response ⟨401, [], "", .error "no body"⟩))).passed = false :=
  ⟨by decide, rfl⟩

/-- C8 (amended): when the creation outcome's ok flag is false (transport
failure, or status 400–599), the comprehensive project chain issues zero
downstream calls and logs exactly one failed TestResult — the creation
step's — and the focused driver issues zero downstream calls and logs
exactly one failed TestResult, which carries the downstream update step's
name with the creation failure in its details.  (3xx creation statuses
count as ok for `requests` and proceed downstream.) -/
theorem create_not_ok_records_single_failed_result :
    ∀ (create detail upd : RequestOutcome),
      create.ok = false →
      APITester.test_project_management create detail upd
          = ⟨[⟨"Create Project", false, statusDetail create.status⟩], 0, none⟩
      ∧ FocusedAPITester.test_critical_failing_endpoints_project create upd
          = ⟨[⟨"Update Project (PUT /projects/:id)", false,
              FocusedAPITester.failedCreateDetail create.status⟩], 0, none⟩ := by
  intro create detail upd h
  constructor
  · simp [APITester.test_project_management, h]
  · simp [FocusedAPITester.test_critical_failing_endpoints_project, h]

/-- Witness for C8's amended theorem at a connection-refused creation. -/
theorem create_not_ok_records_single_failed_result_witness :
    APITester.test_project_management (failOutcome "Connection error")
        (failOutcome "Request timeout") (failOutcome "Request timeout")
      = ⟨[⟨"Create Project", false, statusDetail 0⟩], 0, none⟩
    ∧ FocusedAPITester.test_critical_failing_endpoints_project
        (failOutcome "Connection error") (failOutcome "Request timeout")
      = ⟨[⟨"Update Project (PUT /projects/:id)", false,
          FocusedAPITester.failedCreateDetail 0⟩], 0, none⟩ :=
  create_not_ok_records_single_failed_result (failOutcome "Connection error")
    (failOutcome "Request timeout") (failOutcome "Request timeout") rfl

/-- C8 (counterexample): a creation response with the non-2xx status 300 and
a JSON id is treated as success (`requests` sets ok for every status below
400): the chain logs the creation step as PASSED and issues both downstream
calls, where the claim requires zero downstream calls and one failed
creation TestResult for every non-2xx creation status. -/
theorem non_2xx_create_can_proceed_cex :
    ¬ is2xx 300
    ∧ APITester.test_project_management
        (APITester.make_request "POST" "/projects" none (some "tok") 30
          (.response ⟨300, [("content-type", "application/json")], "raw",
            .ok (.obj [("id", .num 5)])⟩))
        (failOutcome "Request timeout") (failOutcome "Request timeout")
      = ⟨[⟨"Create Project", true, "Status: 300"⟩,
          ⟨"Get Project Details", false, "Status: 0"⟩,
          ⟨"Update Project", false, "Status: 0"⟩], 2, none⟩ :=
  ⟨by decide, rfl⟩

/-- C9: endpoint classification is purely a function of the response status
code — exists is status different from 404, accessible is status below 500,
and the status itself is reported — and every scan of a 3-endpoint list in
which two endpoints return 200 and one returns 404 yields 2 existing
endpoints, exactly 1 missing endpoint, and the printed coverage figure
66.7 percent. -/
theorem endpoint_classification_and_three_endpoint_coverage :
    (∀ (m : String) (r : HttpResponse), MarketplaceApiTest.methodHandled m = true →
      (MarketplaceApiTest.test_endpoint m (.response r)).exists_ = decide (r.status ≠ 404)
      ∧ (MarketplaceApiTest.test_endpoint m (.response r)).accessible
          = decide (r.status < 500)
      ∧ (MarketplaceApiTest.test_endpoint m (.response r)).status_code = r.status)
    ∧ (∀ bs : List HttpBehavior,
        bs.Perm [MarketplaceApiTest.statusResp 200, MarketplaceApiTest.statusResp 200,
                 MarketplaceApiTest.statusResp 404] →
        MarketplaceApiTest.existingCount bs = 2
        ∧ MarketplaceApiTest.missingCount bs = 1
        ∧ MarketplaceApiTest.coverageDisplay bs = 667 / 10) := by
  constructor
  · intro m r hm
    refine ⟨?_, ?_, ?_⟩ <;> simp [MarketplaceApiTest.test_endpoint, hm]
  · intro bs hperm
    have hlen : bs.length = 3 := hperm.length_eq
    have hmap := hperm.map (MarketplaceApiTest.test_endpoint "GET")
    have hex : MarketplaceApiTest.existingCount bs = 2 := by
      unfold MarketplaceApiTest.existingCount
      rw [(hmap.filter _).length_eq]
      rfl
    have hmiss : MarketplaceApiTest.missingCount bs = 1 := by
      unfold MarketplaceApiTest.missingCount
      rw [(hmap.filter _).length_eq]
      rfl
    refine ⟨hex, hmiss, ?_⟩
    unfold MarketplaceApiTest.coverageDisplay MarketplaceApiTest.coverage
    rw [hex, hlen]
    unfold round1
    rw [show ((2 : Nat) : ℚ) / ((3 : Nat) : ℚ) * 100 * 10 + 1 / 2 = 4003 / 6 by norm_num]
    rw [show (⌊(4003 : ℚ) / 6⌋ : ℤ) = 667 from by rw [Int.floor_eq_iff]; norm_num]
    norm_num

/-- Witness for C9 at a 404 response and the concrete 200/200/404 list. -/
theorem endpoint_classification_and_three_endpoint_coverage_witness :
    (MarketplaceApiTest.test_endpoint "GET"
        (.response ⟨404, [], "", .error "no body"⟩)).exists_ = decide ((404 : Nat) ≠ 404)
    ∧ MarketplaceApiTest.coverageDisplay
        [MarketplaceApiTest.statusResp 200, MarketplaceApiTest.statusResp 200,
         MarketplaceApiTest.statusResp 404] = 667 / 10 :=
  ⟨(endpoint_classification_and_three_endpoint_coverage.1 "GET"
      ⟨404, [], "", .error "no body"⟩ (by decide)).1,
   (endpoint_classification_and_three_endpoint_coverage.2 _ (List.Perm.refl _)).2.2⟩
